import Mathlib

/-!
# Pyramid Game — Credit & Vote Transaction Engine: shallow embedding

This file embeds the credit/vote/bounty logic of the pyramid-game repository
(Firestore client code) as pure Lean functions and proves properties of the
embedded operations.

Modelling conventions:
* A user document is an `Account`; fields that the JavaScript reads with a
  default (`data.credits || 0`, `data.votesRemaining ?? max`) are `Option`
  valued, `none` meaning the field is absent from the document.
* The `users` collection is a `DB`, an association list from document id to
  `Account` (insertion order preserved; lookup takes the first match).
* A Firestore transaction reads a snapshot, computes new field values from
  that snapshot, and commits its `update` calls atomically; a `throw` inside
  the transaction body aborts it with no writes.  Each embedded operation
  therefore returns `Except TxError DB`: on `error` no document changed.
  `transaction.update` is modelled by `updateDoc`, which rewrites only the
  named fields of the named document; written values are computed from the
  snapshot exactly where the source computes them from the snapshot, and via
  the commit-time value where the source uses `FieldValue.increment`.
* `serverTimestamp` metadata fields (`lastVoteTime`, `lastGiftSent`, …) carry
  no claim content and are not modelled.
-/

namespace PyramidGame

/-- A document in the `users` collection.  `none` = field absent. -/
structure Account where
  credits : Option Int := none
  votesRemaining : Option Int := none
  totalVotesReceived : Option Int := none
  totalVotesCast : Option Int := none
  totalBountiesPlaced : Option Int := none
  isBounty : Bool := false
  bountyPlacer : Option String := none
  bountyTime : Option Int := none
  /-- part_004 `votesGiven` map: target id → votes given this week. -/
  votesGiven : List (String × Int) := []
  /-- part_004 `voters` map on the receiver: voter id → count. -/
  voters : List (String × Int) := []
  hasStar : Bool := false
  deriving Repr, DecidableEq

/-- The `users` collection: association list, first match wins on lookup. -/
abbrev DB := List (String × Account)

/-- Document lookup (`db.collection("users").doc(id).get()`). -/
def getDoc : DB → String → Option Account
  | [], _ => none
  | p :: ps, id => if p.1 = id then some p.2 else getDoc ps id

/-- Model of `transaction.update(ref, fields)`: rewrite the named fields of document
`id`, leaving every other document untouched. -/
def updateDoc (db : DB) (id : String) (f : Account → Account) : DB :=
  db.map (fun p => if p.1 = id then (p.1, f p.2) else p)

-- ============================================
-- Configuration constants, named as in the source files
-- ============================================

/-- Constant `VOTING_CONFIG.maxVotesPerUser` (voting.js). -/
def maxVotesPerUser : Int := 3

/-- Constant `VOTING_CONFIG.voteReward` (voting.js), granted outside `executeVote`. -/
def voteReward : Int := 100

/-- Constant `ECONOMY_CONFIG.minTransfer` (part_003). -/
def minTransfer : Int := 100

/-- Constant `ECONOMY_CONFIG.maxTransfer` (part_003). -/
def maxTransfer : Int := 1000000

/-- Fee of part_003 `transferCredits`: `Math.floor(amount * 0.05)` with
`ECONOMY_CONFIG.transactionFee = 0.05`.  For every integer `amount` in the
accepted range `[100, 1000000]` the double-precision product
`amount * 0.05` differs from the rational `amount/20` by far less than the
distance to the next integer below it, so the JavaScript floor equals the
exact rational floor `amount * 5 / 100` computed here. -/
def transactionFeeOf (amount : Int) : Int := amount * 5 / 100

/-- Constant `BOUNTY_CONFIG.cost` (bounty.js); also `cost` in part_005. -/
def bountyCost : Int := 50000

/-- Constant `AUTH_CONFIG.defaultCredits` (auth.js). -/
def defaultCredits : Int := 100000

/-- Constant `AUTH_CONFIG.defaultVotes` (auth.js). -/
def defaultVotes : Int := 3

/-- Constant `VOTES_PER_WEEK` (part_004). -/
def VOTES_PER_WEEK : Int := 3

/-- Constant `VOTING_CREDIT_REWARD` (part_004). -/
def VOTING_CREDIT_REWARD : Int := 25000

/-- Constant `MAX_VOTES_PER_TARGET_PER_WEEK` (part_004). -/
def MAX_VOTES_PER_TARGET_PER_WEEK : Int := 2

-- ============================================
-- Typed failures (the `throw`/alert early returns of the source)
-- ============================================

/-- Every distinct failure path across the embedded operations. -/
inductive TxError where
  | notAuthenticated
  | selfTransfer
  | belowMinTransfer
  | aboveMaxTransfer
  | senderNotFound
  | recipientNotFound
  | insufficientCredits
  | voterNotFound
  | targetNotFound
  | noVotesRemaining
  | selfVote
  | votingClosed
  | targetCapReached
  | placerNotFound
  | alreadyTargeted
  | selfBounty
  | alreadyExists
  deriving Repr, DecidableEq

-- ============================================
-- JavaScript comparison/arithmetic on possibly-absent numeric fields
-- ============================================

/-- JavaScript `x <= c` where `x` may be `undefined`: `undefined <= c` is
`false`. -/
def jsLe (x : Option Int) (c : Int) : Bool :=
  match x with
  | some v => v ≤ c
  | none => false

/-- JavaScript `x < c` where `x` may be `undefined`: `undefined < c` is
`false`. -/
def jsLt (x : Option Int) (c : Int) : Bool :=
  match x with
  | some v => v < c
  | none => false

/-- Model of `FieldValue.increment(1)` on a nested counter map: bump the count for
`k`, creating the entry at 1 when absent. -/
def bumpCount : List (String × Int) → String → List (String × Int)
  | [], k => [(k, 1)]
  | p :: ps, k => if p.1 = k then (p.1, p.2 + 1) :: ps else p :: bumpCount ps k

/-- Lookup `map[k] || 0` on a counter map. -/
def lookupCount : List (String × Int) → String → Int
  | [], _ => 0
  | p :: ps, k => if p.1 = k then p.2 else lookupCount ps k

-- ============================================
-- Transfer Engine (part_003 `transferCredits`, part_006 `executeGiftTransaction`)
-- ============================================

/-- part_003 `transferCredits(recipient, amount)` for the authenticated
`currentUser`.  Checks self-transfer and the min/max bounds outside the
transaction, then inside it: both documents exist, sender balance covers
`amount`; debits the sender by `amount` and credits the recipient by
`amount - fee` where `fee = Math.floor(amount * 0.05)`. -/
def transferCredits (db : DB) (currentUser recipient : String) (amount : Int) :
    Except TxError DB :=
  if currentUser = recipient then .error .selfTransfer
  else if amount < minTransfer then .error .belowMinTransfer
  else if amount > maxTransfer then .error .aboveMaxTransfer
  else match getDoc db currentUser, getDoc db recipient with
  | none, _ => .error .senderNotFound
  | some _, none => .error .recipientNotFound
  | some senderDoc, some recipientDoc =>
    let senderCredits := senderDoc.credits.getD 0
    let recipientCredits := recipientDoc.credits.getD 0
    if senderCredits < amount then .error .insufficientCredits
    else
      let fee := transactionFeeOf amount
      let netAmount := amount - fee
      .ok (updateDoc (updateDoc db currentUser
            (fun a => { a with credits := some (senderCredits - amount) }))
          recipient (fun a => { a with credits := some (recipientCredits + netAmount) }))

/-- One document of the `messages` collection as appended by
`executeGiftTransaction` (`type: GIFT`); every record in a
`List GiftMessage` log is a gift-kind record. -/
structure GiftMessage where
  user : String
  target : String
  giftName : String
  deriving Repr, DecidableEq

/-- part_006 `executeGiftTransaction(sender, recipient, giftName, price)`.
The `hasPermissions()` guard tests session state outside the document model;
`sender` here is the authenticated user.  Inside the transaction: both
documents exist and the sender balance covers `price`; debits the sender by
`price`, credits the recipient by `price`, then appends exactly one GIFT
message. -/
def executeGiftTransaction (db : DB) (msgs : List GiftMessage)
    (sender recipient giftName : String) (price : Int) :
    Except TxError (DB × List GiftMessage) :=
  match getDoc db sender, getDoc db recipient with
  | none, _ => .error .senderNotFound
  | some _, none => .error .recipientNotFound
  | some senderDoc, some recipientDoc =>
    let senderCredits := senderDoc.credits.getD 0
    let recipientCredits := recipientDoc.credits.getD 0
    if senderCredits < price then .error .insufficientCredits
    else .ok (updateDoc (updateDoc db sender
            (fun a => { a with credits := some (senderCredits - price) }))
            recipient (fun a => { a with credits := some (recipientCredits + price) }),
          msgs ++ [{ user := sender, target := recipient, giftName := giftName }])

-- ============================================
-- Vote Engine (voting.js)
-- ============================================

/-- voting.js `executeVote(voter, target)`: inside the transaction both
documents must exist and the voter must have
`votesRemaining ?? maxVotesPerUser > 0`; the voter is decremented (with
`totalVotesCast` incremented) and the target `totalVotesReceived` is
incremented.  The best-effort `logVote` append after commit carries no
claim content and is not modelled. -/
def executeVote (db : DB) (voter target : String) : Except TxError DB :=
  match getDoc db voter, getDoc db target with
  | none, _ => .error .voterNotFound
  | some _, none => .error .targetNotFound
  | some voterData, some _ =>
    let votesRemaining := voterData.votesRemaining.getD maxVotesPerUser
    if votesRemaining ≤ 0 then .error .noVotesRemaining
    else .ok (updateDoc (updateDoc db voter
            (fun a => { a with votesRemaining := some (votesRemaining - 1),
                               totalVotesCast := some (a.totalVotesCast.getD 0 + 1) }))
          target (fun a => { a with
                    totalVotesReceived := some (a.totalVotesReceived.getD 0 + 1) }))

/-- voting.js second variant `castVote(targetUserName)` (line 590) for the
stored `myName`.  The self-vote guard runs before any database access.  The
transaction reads `votesRemaining` without a default: when the field is
absent, `undefined <= 0` is false so the guard passes, and the staged write
`undefined - 1` is `NaN` (modelled as an absent numeric value).  Reading
`.data()` of a missing document throws, aborting the transaction. -/
def castVote (db : DB) (myName targetUserName : String) : Except TxError DB :=
  if myName = targetUserName then .error .selfVote
  else match getDoc db myName with
  | none => .error .voterNotFound
  | some myDoc =>
    let votesLeft := myDoc.votesRemaining
    if jsLe votesLeft 0 then .error .noVotesRemaining
    else match getDoc db targetUserName with
    | none => .error .targetNotFound
    | some targetDoc =>
      let currentVotes := targetDoc.totalVotesReceived.getD 0
      .ok (updateDoc (updateDoc db myName
              (fun a => { a with votesRemaining := votesLeft.map (· - 1) }))
            targetUserName
              (fun a => { a with totalVotesReceived := some (currentVotes + 1) }))

/-- part_004 `castVote(targetUserName)`: self-vote guard, voting-window guard
(the wall-clock `isVotingOpen()` result is passed in as `votingOpen`), weekly
allowance guard, and the per-target cap `votesGiven[target] <
MAX_VOTES_PER_TARGET_PER_WEEK`.  On success the target side is staged first
(lines 97-111: created with one vote when absent, incremented otherwise) and
then the sender update (line 114): allowance decremented, +25000 credits, a
star, and the per-target counter bumped. -/
def castVote_v4 (db : DB) (myName targetUserName : String) (votingOpen : Bool) :
    Except TxError DB :=
  if myName = targetUserName then .error .selfVote
  else if !votingOpen then .error .votingClosed
  else match getDoc db myName with
  | none => .error .voterNotFound
  | some myData =>
    let votesLeft := myData.votesRemaining.getD VOTES_PER_WEEK
    if votesLeft ≤ 0 then .error .noVotesRemaining
    else
      let givenToTarget := lookupCount myData.votesGiven targetUserName
      if givenToTarget ≥ MAX_VOTES_PER_TARGET_PER_WEEK then .error .targetCapReached
      else
        let db1 :=
          match getDoc db targetUserName with
          | none => db ++ [(targetUserName,
              { totalVotesReceived := some 1, voters := [(myName, 1)] : Account })]
          | some _ => updateDoc db targetUserName
              (fun a => { a with
                 totalVotesReceived := some (a.totalVotesReceived.getD 0 + 1),
                 voters := bumpCount a.voters myName })
        .ok (updateDoc db1 myName
          (fun a => { a with votesRemaining := some (votesLeft - 1),
                             credits := some (a.credits.getD 0 + VOTING_CREDIT_REWARD),
                             hasStar := true,
                             votesGiven := bumpCount a.votesGiven targetUserName }))

/-- voting.js `resetAllVotes()`: one batch writing
`votesRemaining := VOTING_CONFIG.maxVotesPerUser` on every user document. -/
def resetAllVotes (db : DB) : DB :=
  db.map (fun p => (p.1, { p.2 with votesRemaining := some maxVotesPerUser }))

-- ============================================
-- Bounty Engine (bounty.js, part_005)
-- ============================================

/-- One document of the `messages` collection as appended by the bounty
operations (SYSTEM broadcasts). -/
structure ChatMessage where
  user : String
  text : String
  deriving Repr, DecidableEq

/-- bounty.js `executeBountyTransaction(placer, target)` (the transactional
core of its `placeBounty`; the cooldown/max-active checks of the wrapper
live in per-session UI state).  Inside the transaction: both documents
exist, the target has no active bounty (`AlreadyTargeted`), and the placer
balance covers `BOUNTY_CONFIG.cost`; debits the placer and flags the target.
The stake amount is recorded nowhere: no escrow document or field exists. -/
def executeBountyTransaction (db : DB) (msgs : List ChatMessage)
    (placer target : String) (now : Int) :
    Except TxError (DB × List ChatMessage) :=
  match getDoc db placer, getDoc db target with
  | none, _ => .error .placerNotFound
  | some _, none => .error .targetNotFound
  | some placerData, some targetData =>
    if targetData.isBounty then .error .alreadyTargeted
    else
      let placerCredits := placerData.credits.getD 0
      if placerCredits < bountyCost then .error .insufficientCredits
      else .ok (updateDoc (updateDoc db placer
            (fun a => { a with credits := some (placerCredits - bountyCost),
                               totalBountiesPlaced :=
                                 some (a.totalBountiesPlaced.getD 0 + 1) }))
          target (fun a => { a with isBounty := true, bountyPlacer := some placer,
                                    bountyTime := some now }),
          msgs ++ [{ user := "SYSTEM",
                     text := "CONTRACT OPEN: A bounty has been placed on " ++ target }])

/-- part_005 `placeBounty(targetName)` for the stored user `me`.  Its only
transactional guard is `!mDoc.exists || mDoc.data().credits < cost` (one
shared throw; `undefined < cost` is false when the `credits` field is
absent, in which case the staged debit is `NaN`, modelled as an absent
value).  There is no check that the target is already flagged.  Updating a
missing target document aborts the Firestore transaction. -/
def placeBounty (db : DB) (me targetName : String) (now : Int) :
    Except TxError DB :=
  if targetName = me then .error .selfBounty
  else match getDoc db me with
  | none => .error .insufficientCredits
  | some mDoc =>
    if jsLt mDoc.credits bountyCost then .error .insufficientCredits
    else match getDoc db targetName with
    | none => .error .targetNotFound
    | some _ =>
      .ok (updateDoc (updateDoc db me
              (fun a => { a with credits := mDoc.credits.map (· - bountyCost) }))
            targetName (fun a => { a with isBounty := true, bountyPlacer := some me,
                                          bountyTime := some now }))

/-- bounty.js `expireBounty(username)`: when the document exists and is
flagged, clear `isBounty` and delete `bountyPlacer`/`bountyTime`
(`FieldValue.delete()`), then append one SYSTEM message.  No credits move:
the stake is not returned to the placer. -/
def expireBounty (db : DB) (msgs : List ChatMessage) (username : String) :
    DB × List ChatMessage :=
  match getDoc db username with
  | none => (db, msgs)
  | some data =>
    if !data.isBounty then (db, msgs)
    else (updateDoc db username
            (fun a => { a with isBounty := false, bountyPlacer := none,
                               bountyTime := none }),
          msgs ++ [{ user := "SYSTEM",
                     text := "Bounty contract on " ++ username ++ " has EXPIRED" }])

-- ============================================
-- Registration (auth.js `handleRegister`, account-creating core)
-- ============================================

/-- auth.js `handleRegister`: after the form/password validation (data
outside the account model) it refuses an existing id and otherwise creates
the user document with `credits: AUTH_CONFIG.defaultCredits`,
`totalVotesReceived: 0`, `votesRemaining: AUTH_CONFIG.defaultVotes`. -/
def handleRegister (db : DB) (name : String) : Except TxError DB :=
  match getDoc db name with
  | some _ => .error .alreadyExists
  | none =>
    .ok (db ++ [(name, { credits := some defaultCredits,
                          totalVotesReceived := some 0,
                          votesRemaining := some defaultVotes })])

-- ============================================
-- Derived observations used by the theorems
-- ============================================

/-- Effective balance of a document (`data.credits || 0`); 0 when the
document or the field is absent. -/
def creditsOf (db : DB) (id : String) : Int :=
  match getDoc db id with
  | some a => a.credits.getD 0
  | none => 0

/-- The raw `votesRemaining` field of a document. -/
def votesRemainingOf (db : DB) (id : String) : Option Int :=
  match getDoc db id with
  | some a => a.votesRemaining
  | none => none

/-- A stored `votesRemaining` field is inside `[0, WEEKLY_VOTE_ALLOWANCE]`
(an absent field carries no stored value). -/
def voteOKb (x : Option Int) : Bool :=
  match x with
  | some v => decide (0 ≤ v ∧ v ≤ maxVotesPerUser)
  | none => true

/-- The spec vote-bound invariant over a whole collection. -/
def VoteBound (db : DB) : Prop :=
  ∀ p ∈ db, voteOKb p.2.votesRemaining = true

instance (db : DB) : Decidable (VoteBound db) :=
  inferInstanceAs (Decidable (∀ p ∈ db, voteOKb p.2.votesRemaining = true))

-- ============================================
-- Concrete collections used by the scenario theorems
-- ============================================

/-- Accounts A (100000 credits) and B (0 credits) of the spec scenario. -/
def giftScenarioDB : DB :=
  [("A", { credits := some 100000 }), ("B", { credits := some 0 })]

/-- Accounts A (1000 credits) and B (0 credits), total 1000. -/
def consDB : DB := [("A", { credits := some 1000 }), ("B", { credits := some 0 })]

/-- Result of `transferCredits consDB "A" "B" 100`: the 5-credit fee is gone. -/
def consTransferResult : DB :=
  [("A", { credits := some 900 }), ("B", { credits := some 95 })]

/-- Voter V with a full allowance and target T. -/
def voteDB : DB := [("V", { votesRemaining := some 3 }), ("T", {})]

/-- Collection `voteDB` after V voted twice for T (both votes accepted). -/
def voteDB2 : DB :=
  [("V", { votesRemaining := some 1, totalVotesCast := some 2 }),
   ("T", { totalVotesReceived := some 2 })]

/-- Voter W whose document has no `votesRemaining` field at all. -/
def noFieldDB : DB := [("W", { credits := some 0 }), ("T", {})]

/-- Placer P with 100000 credits and unflagged target T. -/
def bountyDB : DB := [("P", { credits := some 100000 }), ("T", { credits := some 0 })]

/-- Collection `bountyDB` after placing a bounty on T and letting it expire: the 50000
stake never comes back to P. -/
def bountyExpiredDB : DB :=
  [("P", { credits := some 50000, totalBountiesPlaced := some 1 }),
   ("T", { credits := some 0 })]

/-- Placer P and a target T already flagged with an active bounty by Q. -/
def targetedDB : DB :=
  [("P", { credits := some 100000 }),
   ("T", { credits := some 0, isBounty := true, bountyPlacer := some "Q",
           bountyTime := some 1 })]

/-- Collection `targetedDB` after part_005 `placeBounty` by P: accepted, P debited,
`bountyPlacer` overwritten. -/
def targetedDBAfter : DB :=
  [("P", { credits := some 50000 }),
   ("T", { credits := some 0, isBounty := true, bountyPlacer := some "P",
           bountyTime := some 5 })]

/-- Voter with `votesGiven` already at the part_004 per-target cap for T. -/
def cappedDB : DB :=
  [("V", { votesRemaining := some 3, votesGiven := [("T", 2)] }), ("T", {})]

/-- Collection `voteDB` after one vote by V for T. -/
def voteDB1 : DB :=
  [("V", { votesRemaining := some 2, totalVotesCast := some 1 }),
   ("T", { totalVotesReceived := some 1 })]

/-- Voter X with an exhausted weekly allowance. -/
def tiredDB : DB := [("X", { votesRemaining := some 0 }), ("T", {})]

/-- Voter V who has given T one vote so far: below the part_004 cap of 2,
but already at a cap of 1. -/
def partialCapDB : DB :=
  [("V", { votesRemaining := some 3, votesGiven := [("T", 1)] }), ("T", {})]

-- ============================================
-- Infrastructure lemmas about the collection model
-- ============================================

@[simp] theorem getDoc_nil (id : String) : getDoc [] id = none := rfl

@[simp] theorem getDoc_cons (p : String × Account) (ps : DB) (id : String) :
    getDoc (p :: ps) id = if p.1 = id then some p.2 else getDoc ps id := rfl

@[simp] theorem updateDoc_nil (id : String) (f : Account → Account) :
    updateDoc [] id f = [] := rfl

@[simp] theorem updateDoc_cons (p : String × Account) (ps : DB) (id : String)
    (f : Account → Account) :
    updateDoc (p :: ps) id f
      = (if p.1 = id then (p.1, f p.2) else p) :: updateDoc ps id f := rfl

theorem getDoc_updateDoc_self (db : DB) (id : String) (f : Account → Account) :
    getDoc (updateDoc db id f) id = (getDoc db id).map f := by
  induction db with
  | nil => rfl
  | cons p ps ih =>
      by_cases h : p.1 = id <;> simp [h, ih]

theorem getDoc_updateDoc_other (db : DB) (id id' : String) (f : Account → Account)
    (h : id' ≠ id) : getDoc (updateDoc db id f) id' = getDoc db id' := by
  induction db with
  | nil => rfl
  | cons p ps ih =>
      by_cases hp : p.1 = id
      · simp [hp, Ne.symm h, ih]
      · by_cases hq : p.1 = id' <;> simp [hp, hq, h, ih]

/-- Membership description of an updated collection. -/
theorem mem_updateDoc {db : DB} {id : String} {f : Account → Account}
    {q : String × Account} (h : q ∈ updateDoc db id f) :
    ∃ p ∈ db, q = if p.1 = id then (p.1, f p.2) else p := by
  rcases List.mem_map.1 h with ⟨p, hp, he⟩
  exact ⟨p, hp, he.symm⟩

/-- A successful lookup comes from some stored entry. -/
theorem getDoc_mem {db : DB} {id : String} {a : Account}
    (h : getDoc db id = some a) : ∃ p ∈ db, p.2 = a := by
  induction db with
  | nil => simp [getDoc] at h
  | cons p ps ih =>
      by_cases hp : p.1 = id
      · refine ⟨p, List.mem_cons_self .., ?_⟩
        simp [hp] at h
        exact h
      · simp [hp] at h
        rcases ih h with ⟨q, hq, he⟩
        exact ⟨q, List.mem_cons_of_mem _ hq, he⟩

/-- Looking up the first document of a transaction that updated two distinct
documents, first `s` then `r`. -/
theorem getDoc_double_update_fst (db : DB) (s r : String) (f g : Account → Account)
    (hne : s ≠ r) :
    getDoc (updateDoc (updateDoc db s f) r g) s = (getDoc db s).map f := by
  rw [getDoc_updateDoc_other _ _ _ _ hne, getDoc_updateDoc_self]

/-- Looking up the second document of a transaction that updated two distinct
documents, first `s` then `r`. -/
theorem getDoc_double_update_snd (db : DB) (s r : String) (f g : Account → Account)
    (hne : s ≠ r) :
    getDoc (updateDoc (updateDoc db s f) r g) r = (getDoc db r).map g := by
  rw [getDoc_updateDoc_self, getDoc_updateDoc_other _ _ _ _ (Ne.symm hne)]

/-- Documents a two-document transaction did not touch are unchanged. -/
theorem getDoc_double_update_other (db : DB) (s r x : String)
    (f g : Account → Account) (hs : x ≠ s) (hr : x ≠ r) :
    getDoc (updateDoc (updateDoc db s f) r g) x = getDoc db x := by
  rw [getDoc_updateDoc_other _ _ _ _ hr, getDoc_updateDoc_other _ _ _ _ hs]

/-- An update whose per-document effect respects the vote bound preserves
the collection-wide invariant. -/
theorem voteBound_updateDoc {db : DB} {id : String} {f : Account → Account}
    (hdb : VoteBound db)
    (hf : ∀ a, voteOKb a.votesRemaining = true → voteOKb (f a).votesRemaining = true) :
    VoteBound (updateDoc db id f) := by
  intro q hq
  rcases mem_updateDoc hq with ⟨p, hp, he⟩
  by_cases h : p.1 = id
  · rw [he]
    simp only [h, if_true]
    exact hf p.2 (hdb p hp)
  · rw [he]
    simp only [h, if_false]
    exact hdb p hp

/-- Appending documents on the right does not shadow an existing one. -/
theorem getDoc_append_left {db : DB} {id : String} {a : Account} (l : DB)
    (h : getDoc db id = some a) : getDoc (db ++ l) id = some a := by
  induction db with
  | nil => simp [getDoc] at h
  | cons p ps ih =>
      by_cases hp : p.1 = id
      · simp [hp] at h ⊢
        exact h
      · simp [hp] at h ⊢
        exact ih h

/-- Bumping a counter map raises the bumped key by exactly one. -/
theorem lookupCount_bumpCount_self (m : List (String × Int)) (k : String) :
    lookupCount (bumpCount m k) k = lookupCount m k + 1 := by
  induction m with
  | nil => simp [bumpCount, lookupCount]
  | cons p ps ih =>
      by_cases hp : p.1 = k
      · simp [bumpCount, lookupCount, hp]
      · simp [bumpCount, lookupCount, hp, ih]

-- ============================================
-- Claim theorems
-- ============================================

/-- C2: with A holding exactly 100000 credits and B holding 0, a successful
gift transfer of 30000 from A to B leaves A at exactly 70000, B at exactly
30000, and appends exactly one gift-kind transfer record. -/
theorem C2_gift_scenario :
    (executeGiftTransaction giftScenarioDB [] "A" "B" "Crown" 30000).map
      (fun r => (creditsOf r.1 "A", creditsOf r.1 "B", r.2))
    = Except.ok (70000, 30000,
        [{ user := "A", target := "B", giftName := "Crown" }]) := by
  rfl

/-- C4: `castVote(x, x)` always fails with the self-vote error; the guard
runs before any database access, so no account document changes. -/
theorem C4_self_vote_rejected (db : DB) (x : String) :
    castVote db x x = Except.error TxError.selfVote := by
  simp [castVote]

/-- C4 witness: the self-vote rejection at a concrete collection. -/
theorem C4_self_vote_rejected_witness :
    castVote voteDB "V" "V" = Except.error TxError.selfVote :=
  C4_self_vote_rejected voteDB "V"

/-- C9: the weekly reset batch is idempotent: running it twice yields
exactly the collection produced by running it once. -/
theorem C9_reset_idempotent (db : DB) :
    resetAllVotes (resetAllVotes db) = resetAllVotes db := by
  induction db with
  | nil => rfl
  | cons p ps ih => simp [resetAllVotes] at ih ⊢

/-- C9 witness: idempotence of the reset at a concrete collection. -/
theorem C9_reset_idempotent_witness :
    resetAllVotes (resetAllVotes voteDB) = resetAllVotes voteDB :=
  C9_reset_idempotent voteDB

/-- C1 counterexample: `transferCredits` of amount 100 from A (1000 credits)
to B (0 credits) succeeds but credits B with only 95: the 5-credit fee
(`Math.floor(100 * 0.05)`) is destroyed, so the closed-set total drops from
1000 to 995 and the recipient is not credited by exactly the transferred
amount. -/
theorem C1_fee_destroys_credits_cex :
    transferCredits consDB "A" "B" 100 = Except.ok consTransferResult
    ∧ creditsOf consDB "A" + creditsOf consDB "B" = 1000
    ∧ creditsOf consTransferResult "A" + creditsOf consTransferResult "B" = 995
    ∧ creditsOf consTransferResult "B" ≠ creditsOf consDB "B" + 100 := by
  exact ⟨rfl, rfl, rfl, by decide⟩

/-- C5 counterexample: with `executeVote` (the cited voting.js transaction)
V gives T one vote and then a second vote in the same period; the second
call is accepted and committed instead of failing with a target-cap
error — voting.js tracks no per-target counts at all. -/
theorem C5_no_target_cap_cex :
    (executeVote voteDB "V" "T").bind (fun db1 => executeVote db1 "V" "T")
      = Except.ok voteDB2 := by
  rfl

/-- C6 counterexample: P (100000 credits) places a 50000 bounty on T and the
bounty expires with no claims; expiry returns nothing, so P ends at 50000
credits instead of recovering the stake, and the document model has no
`remaining`/`state` fields to report. -/
theorem C6_forfeit_cex :
    (executeBountyTransaction bountyDB [] "P" "T" 1000).map
      (fun r => (expireBounty r.1 [] "T").1) = Except.ok bountyExpiredDB
    ∧ creditsOf bountyDB "P" = 100000
    ∧ creditsOf bountyExpiredDB "P" = 50000
    ∧ creditsOf bountyExpiredDB "P" ≠ creditsOf bountyDB "P" := by
  exact ⟨rfl, rfl, rfl, by decide⟩

/-- C7 counterexample: part_005 `placeBounty` by P on T, which already
carries an active bounty placed by Q, is accepted: P is debited 50000 and
`bountyPlacer` is overwritten to P, instead of the call failing with an
already-targeted error. -/
theorem C7_already_targeted_cex :
    placeBounty targetedDB "P" "T" 5 = Except.ok targetedDBAfter
    ∧ creditsOf targetedDBAfter "P" = creditsOf targetedDB "P" - bountyCost := by
  exact ⟨rfl, rfl⟩

/-- C5 (amended): only the part_004 variant enforces a per-target cap, and
its cap is `MAX_VOTES_PER_TARGET_PER_WEEK = 2`, not 1: inside an open
voting window, with the voter existing and holding votes, `castVote_v4`
fails with the target-cap error (staging no writes) exactly when the voter
has already given the target two votes this period — at any count below 2,
in particular at exactly one vote already given, the vote is accepted and
committed, bumping the per-target count by one and consuming one vote; the
voting.js `executeVote` used by `voteFor` enforces no per-target cap, so a
repeat vote for the same target is accepted there while votes remain. -/
theorem C5_target_cap_amended :
    (∀ (db : DB) (myName target : String) (a : Account),
        myName ≠ target →
        getDoc db myName = some a →
        ¬ a.votesRemaining.getD VOTES_PER_WEEK ≤ 0 →
        lookupCount a.votesGiven target ≥ MAX_VOTES_PER_TARGET_PER_WEEK →
        castVote_v4 db myName target true
          = Except.error TxError.targetCapReached) ∧
    (∀ (db : DB) (myName target : String) (a : Account),
        myName ≠ target →
        getDoc db myName = some a →
        ¬ a.votesRemaining.getD VOTES_PER_WEEK ≤ 0 →
        lookupCount a.votesGiven target < MAX_VOTES_PER_TARGET_PER_WEEK →
        (castVote_v4 db myName target true).map (fun db' =>
            (getDoc db' myName).map (fun b =>
              (lookupCount b.votesGiven target, b.votesRemaining)))
          = Except.ok (some (lookupCount a.votesGiven target + 1,
              some (a.votesRemaining.getD VOTES_PER_WEEK - 1)))) := by
  constructor
  · intro db myName target a hne hget hvotes hcap
    simp [castVote_v4, hne, hget, hvotes, hcap]
  · intro db myName target a hne hget hvotes hcap
    have hcap' : ¬ lookupCount a.votesGiven target
        ≥ MAX_VOTES_PER_TARGET_PER_WEEK := by omega
    rcases ht : getDoc db target with _ | td
    · simp only [castVote_v4, hne, hget, hvotes, hcap', ht]
      simp only [Bool.not_true, Bool.false_eq_true, if_false, Except.map]
      rw [getDoc_updateDoc_self, getDoc_append_left _ hget]
      simp [lookupCount_bumpCount_self]
    · simp only [castVote_v4, hne, hget, hvotes, hcap', ht]
      simp only [Bool.not_true, Bool.false_eq_true, if_false, Except.map]
      rw [getDoc_updateDoc_self, getDoc_updateDoc_other _ _ _ _ hne, hget]
      simp [lookupCount_bumpCount_self]

/-- C5 witness: V at two votes already given to T is rejected with the
target-cap error, while V at one vote already given to T — a state a cap of
1 would reject — has a further vote accepted and committed, reaching count
2 with one vote consumed. -/
theorem C5_target_cap_amended_witness :
    castVote_v4 cappedDB "V" "T" true = Except.error TxError.targetCapReached ∧
    (castVote_v4 partialCapDB "V" "T" true).map (fun db' =>
        (getDoc db' "V").map (fun b =>
          (lookupCount b.votesGiven "T", b.votesRemaining)))
      = Except.ok (some (2, some 2)) := by
  constructor
  · exact C5_target_cap_amended.1 cappedDB "V" "T"
      { votesRemaining := some 3, votesGiven := [("T", 2)] }
      (by decide) rfl (by decide) (by decide)
  · have h := C5_target_cap_amended.2 partialCapDB "V" "T"
      { votesRemaining := some 3, votesGiven := [("T", 1)] }
      (by decide) rfl (by decide) (by decide)
    rw [h]
    rfl

/-- C7 (amended): the bounty.js transaction does enforce at-most-one active
bounty per target — `executeBountyTransaction` always fails with the
already-targeted error, staging no writes, when the target document has
`isBounty` set; the part_005 `placeBounty` variant performs no such check
and accepts a flagged target, debiting the placer again and overwriting
`bountyPlacer`. -/
theorem C7_bountyjs_enforces_cap (db : DB) (msgs : List ChatMessage)
    (placer target : String) (now : Int) (pd td : Account)
    (hp : getDoc db placer = some pd) (ht : getDoc db target = some td)
    (hb : td.isBounty = true) :
    executeBountyTransaction db msgs placer target now
      = Except.error TxError.alreadyTargeted := by
  simp [executeBountyTransaction, hp, ht, hb]

/-- C7 witness: the already-targeted rejection at a concrete collection. -/
theorem C7_bountyjs_enforces_cap_witness :
    executeBountyTransaction targetedDB [] "P" "T" 5
      = Except.error TxError.alreadyTargeted :=
  C7_bountyjs_enforces_cap targetedDB [] "P" "T" 5
    { credits := some 100000 }
    { credits := some 0, isBounty := true, bountyPlacer := some "Q",
      bountyTime := some 1 }
    rfl rfl rfl

/-- C8: in each embedded transaction body every precondition failure —
missing account, insufficient funds, no votes remaining, target already
flagged — is detected before any write is staged: the operation returns the
corresponding typed error, and an `Except.error` result carries no updated
collection, so every account document is exactly as it was. -/
theorem C8_no_partial_mutation :
    (∀ (db : DB) (msgs : List GiftMessage) (s r g : String) (p : Int),
        getDoc db s = none →
        executeGiftTransaction db msgs s r g p
          = Except.error TxError.senderNotFound) ∧
    (∀ (db : DB) (s r : String) (amt : Int) (sd rd : Account),
        s ≠ r → ¬ amt < minTransfer → ¬ amt > maxTransfer →
        getDoc db s = some sd → getDoc db r = some rd →
        sd.credits.getD 0 < amt →
        transferCredits db s r amt = Except.error TxError.insufficientCredits) ∧
    (∀ (db : DB) (voter target : String) (vd td : Account),
        getDoc db voter = some vd → getDoc db target = some td →
        vd.votesRemaining.getD maxVotesPerUser ≤ 0 →
        executeVote db voter target = Except.error TxError.noVotesRemaining) ∧
    (∀ (db : DB) (msgs : List ChatMessage) (placer target : String) (now : Int)
        (pd td : Account),
        getDoc db placer = some pd → getDoc db target = some td →
        td.isBounty = true →
        executeBountyTransaction db msgs placer target now
          = Except.error TxError.alreadyTargeted) := by
  refine ⟨?_, ?_, ?_, ?_⟩
  · intro db msgs s r g p hs
    simp [executeGiftTransaction, hs]
  · intro db s r amt sd rd hne hmin hmax hs hr hlt
    simp [transferCredits, hne, hmin, hmax, hs, hr, hlt]
  · intro db voter target vd td hv ht hz
    simp [executeVote, hv, ht, hz]
  · intro db msgs placer target now pd td hp ht hb
    simp [executeBountyTransaction, hp, ht, hb]

/-- C8 witness: two of the failure modes at concrete collections — a gift
from a missing sender and a vote with an exhausted allowance. -/
theorem C8_no_partial_mutation_witness :
    executeGiftTransaction [] [] "A" "B" "g" 5
      = Except.error TxError.senderNotFound
    ∧ executeVote tiredDB "X" "T" = Except.error TxError.noVotesRemaining := by
  exact ⟨C8_no_partial_mutation.1 [] [] "A" "B" "g" 5 rfl,
         C8_no_partial_mutation.2.2.1 tiredDB "X" "T"
           { votesRemaining := some 0 } {} rfl rfl (by decide)⟩

/-- C10: a voter document with no `votesRemaining` field at all is treated
by `executeVote` as holding the full weekly allowance
(`?? maxVotesPerUser`): the precondition check passes and the committed
transaction writes `votesRemaining = 2` for that voter. -/
theorem C10_default_rederived (db : DB) (voter target : String) (a td : Account)
    (hv : getDoc db voter = some a) (hnone : a.votesRemaining = none)
    (ht : getDoc db target = some td) :
    (executeVote db voter target).map (fun db' => votesRemainingOf db' voter)
      = Except.ok (some 2) := by
  have hguard : ¬ a.votesRemaining.getD maxVotesPerUser ≤ 0 := by
    rw [hnone]; decide
  simp only [executeVote, hv, ht, hguard, if_false, Except.map, votesRemainingOf]
  by_cases hvt : voter = target
  · subst hvt
    rw [getDoc_updateDoc_self, getDoc_updateDoc_self, hv]
    simp [hnone, maxVotesPerUser]
  · rw [getDoc_double_update_fst _ _ _ _ _ hvt, hv]
    simp [hnone, maxVotesPerUser]

/-- C10 witness: a voter whose document lacks `votesRemaining` commits a
vote and ends at exactly 2. -/
theorem C10_default_rederived_witness :
    (executeVote noFieldDB "W" "T").map (fun db' => votesRemainingOf db' "W")
      = Except.ok (some 2) :=
  C10_default_rederived noFieldDB "W" "T" { credits := some 0 } {} rfl rfl rfl

/-- C6 (amended): bounty expiry forfeits the stake instead of returning it:
`expireBounty` on a flagged target changes no account balance anywhere,
clears the target's `isBounty` flag, deletes `bountyPlacer`/`bountyTime`,
and appends one SYSTEM expiry message; the document model has no
`remaining` or `state` fields. -/
theorem C6_expiry_amended (db : DB) (msgs : List ChatMessage) (u : String)
    (a : Account) (hget : getDoc db u = some a) (hb : a.isBounty = true) :
    (∀ x, creditsOf (expireBounty db msgs u).1 x = creditsOf db x) ∧
    getDoc (expireBounty db msgs u).1 u
      = some { a with
               isBounty := false, bountyPlacer := none, bountyTime := none } ∧
    (expireBounty db msgs u).2
      = msgs ++ [{ user := "SYSTEM",
                   text := "Bounty contract on " ++ u ++ " has EXPIRED" }] := by
  refine ⟨?_, ?_, ?_⟩
  · intro x
    by_cases hx : x = u
    · subst hx
      simp [expireBounty, hget, hb, creditsOf, getDoc_updateDoc_self]
    · simp [expireBounty, hget, hb, creditsOf,
        getDoc_updateDoc_other _ _ _ _ hx]
  · simp [expireBounty, hget, hb, getDoc_updateDoc_self]
  · simp [expireBounty, hget, hb]

/-- C6 witness: expiring the active bounty on T moves no credits for P and
erases the bounty fields of T. -/
theorem C6_expiry_amended_witness :
    creditsOf (expireBounty targetedDB [] "T").1 "P" = creditsOf targetedDB "P"
    ∧ getDoc (expireBounty targetedDB [] "T").1 "T"
        = some { credits := some 0 } := by
  have h := C6_expiry_amended targetedDB [] "T"
    { credits := some 0, isBounty := true, bountyPlacer := some "Q",
      bountyTime := some 1 } rfl rfl
  exact ⟨h.1 "P", h.2.1⟩

/-- C3: the committed operations keep every stored `votesRemaining` inside
`[0, WEEKLY_VOTE_ALLOWANCE]`: a committed vote never drives the voter below
0 (the guard rejects at 0 first), the weekly reset writes exactly the
allowance everywhere, and registration creates the account at the
allowance. -/
theorem C3_vote_bound :
    (∀ (db : DB) (voter target : String) (db' : DB), VoteBound db →
        executeVote db voter target = Except.ok db' → VoteBound db') ∧
    (∀ db : DB, VoteBound (resetAllVotes db)) ∧
    (∀ (db : DB) (name : String) (db' : DB), VoteBound db →
        handleRegister db name = Except.ok db' → VoteBound db') := by
  refine ⟨?_, ?_, ?_⟩
  · intro db voter target db' hdb h
    rcases hv : getDoc db voter with _ | vd
    · simp [executeVote, hv] at h
    rcases ht : getDoc db target with _ | td
    · simp [executeVote, hv, ht] at h
    by_cases hz : vd.votesRemaining.getD maxVotesPerUser ≤ 0
    · simp [executeVote, hv, ht, hz] at h
    · simp only [executeVote, hv, ht, hz, if_false] at h
      have hvr : vd.votesRemaining.getD maxVotesPerUser ≤ maxVotesPerUser := by
        rcases getDoc_mem hv with ⟨p, hp, he⟩
        have hok := hdb p hp
        rw [he] at hok
        rcases hx : vd.votesRemaining with _ | v
        · simp [hx, Option.getD]
        · rw [hx] at hok
          simp only [voteOKb, decide_eq_true_eq] at hok
          simp [hx, Option.getD]
          exact hok.2
      rw [← Except.ok.inj h]
      refine voteBound_updateDoc (voteBound_updateDoc hdb ?_) ?_
      · intro a _
        simp only [voteOKb, decide_eq_true_eq]
        omega
      · intro a ha
        exact ha
  · intro db q hq
    rcases List.mem_map.1 hq with ⟨p, _, he⟩
    rw [← he]
    simp [voteOKb, maxVotesPerUser]
  · intro db name db' hdb h
    rcases hn : getDoc db name with _ | a
    · simp only [handleRegister, hn] at h
      rw [← Except.ok.inj h]
      intro q hq
      rcases List.mem_append.1 hq with hq | hq
      · exact hdb q hq
      · simp only [List.mem_singleton] at hq
        rw [hq]
        simp [voteOKb, defaultVotes, maxVotesPerUser]
    · simp [handleRegister, hn] at h

/-- C3 witness: the invariant holds on `voteDB` and is preserved across the
committed vote that produces `voteDB1`. -/
theorem C3_vote_bound_witness : VoteBound voteDB ∧ VoteBound voteDB1 :=
  ⟨by decide, C3_vote_bound.1 voteDB "V" "T" voteDB1 (by decide) rfl⟩

/-- C1 (amended): only the gift transaction conserves credits exactly — a
committed gift of X debits the sender by exactly X, credits the recipient
by exactly X, touches no other document and appends exactly one gift
record.  `transferCredits` debits the sender by the full amount but credits
the recipient only `amount - transactionFeeOf amount`: the 5 percent fee is
destroyed.  Bounty placement debits the placer by the stake with no
matching credit anywhere (no escrow exists), and bounty expiry moves no
credits at all, so the stake of an expired bounty is forfeited. -/
theorem C1_conservation_amended :
    (∀ (db : DB) (msgs : List GiftMessage) (s r g : String) (p : Int)
        (db' : DB) (msgs' : List GiftMessage), s ≠ r →
        executeGiftTransaction db msgs s r g p = Except.ok (db', msgs') →
        creditsOf db' s = creditsOf db s - p ∧
        creditsOf db' r = creditsOf db r + p ∧
        (∀ x, x ≠ s → x ≠ r → getDoc db' x = getDoc db x) ∧
        msgs' = msgs ++ [{ user := s, target := r, giftName := g }]) ∧
    (∀ (db : DB) (s r : String) (amt : Int) (db' : DB), s ≠ r →
        transferCredits db s r amt = Except.ok db' →
        creditsOf db' s = creditsOf db s - amt ∧
        creditsOf db' r = creditsOf db r + (amt - transactionFeeOf amt) ∧
        (∀ x, x ≠ s → x ≠ r → getDoc db' x = getDoc db x)) ∧
    (∀ (db : DB) (msgs : List ChatMessage) (pl t : String) (now : Int)
        (db' : DB) (msgs' : List ChatMessage), pl ≠ t →
        executeBountyTransaction db msgs pl t now = Except.ok (db', msgs') →
        creditsOf db' pl = creditsOf db pl - bountyCost ∧
        (∀ x, x ≠ pl → creditsOf db' x = creditsOf db x)) ∧
    (∀ (db : DB) (msgs : List ChatMessage) (u x : String),
        creditsOf (expireBounty db msgs u).1 x = creditsOf db x) := by
  refine ⟨?_, ?_, ?_, ?_⟩
  · intro db msgs s r g p db' msgs' hne h
    rcases hs : getDoc db s with _ | sd
    · simp [executeGiftTransaction, hs] at h
    rcases hr : getDoc db r with _ | rd
    · simp [executeGiftTransaction, hs, hr] at h
    by_cases hlt : sd.credits.getD 0 < p
    · simp [executeGiftTransaction, hs, hr, hlt] at h
    · simp only [executeGiftTransaction, hs, hr, hlt, if_false,
        Except.ok.injEq, Prod.mk.injEq] at h
      obtain ⟨hdb, hmsgs⟩ := h
      refine ⟨?_, ?_, ?_, hmsgs.symm⟩
      · rw [← hdb]
        simp [creditsOf, getDoc_double_update_fst db s r _ _ hne, hs]
      · rw [← hdb]
        simp [creditsOf, getDoc_double_update_snd db s r _ _ hne, hr]
      · intro x hxs hxr
        rw [← hdb]
        exact getDoc_double_update_other db s r x _ _ hxs hxr
  · intro db s r amt db' hne h
    by_cases hmin : amt < minTransfer
    · simp [transferCredits, hne, hmin] at h
    by_cases hmax : amt > maxTransfer
    · simp [transferCredits, hne, hmin, hmax] at h
    rcases hs : getDoc db s with _ | sd
    · simp [transferCredits, hne, hmin, hmax, hs] at h
    rcases hr : getDoc db r with _ | rd
    · simp [transferCredits, hne, hmin, hmax, hs, hr] at h
    by_cases hlt : sd.credits.getD 0 < amt
    · simp [transferCredits, hne, hmin, hmax, hs, hr, hlt] at h
    · simp only [transferCredits, hne, hmin, hmax, hs, hr, hlt, if_false,
        if_neg, Except.ok.injEq] at h
      refine ⟨?_, ?_, ?_⟩
      · rw [← h]
        simp [creditsOf, getDoc_double_update_fst db s r _ _ hne, hs]
      · rw [← h]
        simp [creditsOf, getDoc_double_update_snd db s r _ _ hne, hr]
      · intro x hxs hxr
        rw [← h]
        exact getDoc_double_update_other db s r x _ _ hxs hxr
  · intro db msgs pl t now db' msgs' hne h
    rcases hp : getDoc db pl with _ | pd
    · simp [executeBountyTransaction, hp] at h
    rcases ht : getDoc db t with _ | td
    · simp [executeBountyTransaction, hp, ht] at h
    by_cases hb : td.isBounty
    · simp [executeBountyTransaction, hp, ht, hb] at h
    by_cases hlt : pd.credits.getD 0 < bountyCost
    · simp [executeBountyTransaction, hp, ht, hb, hlt] at h
    · simp only [executeBountyTransaction, hp, ht, hb, hlt, if_false,
        Bool.false_eq_true, Except.ok.injEq, Prod.mk.injEq] at h
      obtain ⟨hdb, _⟩ := h
      refine ⟨?_, ?_⟩
      · rw [← hdb]
        simp [creditsOf, getDoc_double_update_fst db pl t _ _ hne, hp]
      · intro x hxp
        rw [← hdb]
        by_cases hxt : x = t
        · subst hxt
          simp [creditsOf, getDoc_double_update_snd db pl x _ _ hne, ht]
        · simp [creditsOf, getDoc_double_update_other db pl t x _ _ hxp hxt]
  · intro db msgs u x
    rcases hu : getDoc db u with _ | a
    · simp [expireBounty, hu]
    by_cases hb : a.isBounty
    · simp only [expireBounty, hu, hb, Bool.not_true, Bool.false_eq_true,
        if_false]
      by_cases hx : x = u
      · subst hx
        simp [creditsOf, getDoc_updateDoc_self, hu]
      · simp [creditsOf, getDoc_updateDoc_other _ _ _ _ hx]
    · simp [expireBounty, hu, hb]

/-- C1 witness: the amended conservation facts instantiated on `consDB`: the
transfer of 100 from A to B debits A by 100 and credits B by
`100 - transactionFeeOf 100`. -/
theorem C1_conservation_amended_witness :
    creditsOf consTransferResult "A" = creditsOf consDB "A" - 100 ∧
    creditsOf consTransferResult "B"
      = creditsOf consDB "B" + (100 - transactionFeeOf 100) := by
  have h := C1_conservation_amended.2.1 consDB "A" "B" 100 consTransferResult
    (by decide) rfl
  exact ⟨h.1, h.2.1⟩

end PyramidGame
